import Mathlib

/-!
Shallow embedding of the WeMo integration component
(homeassistant/components/wemo): model-name classification, static
configuration parsing, device-endpoint resolution, the resolution cache,
config-entry reconciliation and the version-1 schema migration.
External collaborators (pywemo probe/fetch, the host configuration store)
are passed in as explicit function parameters or modelled from the spec
where the deciding code lives outside the component sources.
-/

namespace Wemo

/-- Home Assistant platform domains used by the WeMo component: the
functional categories a model name classifies into. -/
inductive Domain where
  | binary_sensor
  | fan
  | light
  | switch
deriving DecidableEq, Repr

/-- WEMO_MODEL_DISPATCH from homeassistant/components/wemo/__init__.py:
mapping from Wemo model_name to domain. -/
def WEMO_MODEL_DISPATCH : List (String × Domain) :=
  [("Bridge", .light),
   ("CoffeeMaker", .switch),
   ("Dimmer", .light),
   ("Humidifier", .fan),
   ("Insight", .switch),
   ("LightSwitch", .switch),
   ("Maker", .switch),
   ("Motion", .binary_sensor),
   ("Sensor", .binary_sensor),
   ("Socket", .switch)]

/-- The lookup `WEMO_MODEL_DISPATCH.get(device.model_name, SWITCH_DOMAIN)`
performed in `async_setup_entry`: dictionary get with `switch` as default. -/
def classify (model_name : String) : Domain :=
  ((WEMO_MODEL_DISPATCH.find? (fun p => p.1 == model_name)).map Prod.snd).getD .switch

/-- A device-registry entry as inspected by `async_migrate_entry`: only the
list of config-entry ids associated with the device matters. -/
structure DeviceEntry where
  config_entries : List String
deriving DecidableEq, Repr

/-- Observable outcome of `async_migrate_entry`: whether removal of the entry
was scheduled (`hass.config_entries.async_remove`) and the boolean the
function returns to the host. -/
structure MigrateResult where
  removalScheduled : Bool
  returnValue : Bool
deriving DecidableEq, Repr

/-- Embedding of `async_migrate_entry` from __init__.py: for a version-1 entry, schedule
its removal exactly when every associated device has more than one config
entry (i.e. also has a per-device version-2 entry), and report the migration
as not complete; entries of other versions are reported migrated as-is. -/
def async_migrate_entry (version : Nat) (device_entries : List DeviceEntry) :
    MigrateResult :=
  if version = 1 then
    { removalScheduled := device_entries.all (fun d => d.config_entries.length > 1)
      returnValue := false }
  else
    { removalScheduled := false, returnValue := true }

/-- Outcome vocabulary of the spec's Schema Migrator: `superseded` when the
version-1 record's removal is scheduled, `retain` otherwise. -/
inductive MigrationOutcome where
  | retain
  | superseded
deriving DecidableEq, Repr

/-- The migration outcome in the spec's terms, read off a `MigrateResult`. -/
def migrationOutcome (r : MigrateResult) : MigrationOutcome :=
  if r.removalScheduled then .superseded else .retain

/-- C1: For a version-1 config record, migration yields `superseded` (the
record's removal is scheduled) if and only if every associated device has a
version-2 per-device record, i.e. is associated with more than one config
entry; it yields `retain` (the record is kept) if and only if some associated
device lacks a version-2 counterpart. -/
theorem migrate_v1_superseded_iff (device_entries : List DeviceEntry) :
    (migrationOutcome (async_migrate_entry 1 device_entries) = .superseded ↔
      ∀ d ∈ device_entries, d.config_entries.length > 1) ∧
    (migrationOutcome (async_migrate_entry 1 device_entries) = .retain ↔
      ∃ d ∈ device_entries, d.config_entries.length ≤ 1) := by
  have hsup : migrationOutcome (async_migrate_entry 1 device_entries) = .superseded ↔
      ∀ d ∈ device_entries, d.config_entries.length > 1 := by
    simp [async_migrate_entry, migrationOutcome, List.all_eq_true]
  refine ⟨hsup, ?_⟩
  have hdich : migrationOutcome (async_migrate_entry 1 device_entries) = .retain ↔
      ¬ migrationOutcome (async_migrate_entry 1 device_entries) = .superseded := by
    cases hmo : migrationOutcome (async_migrate_entry 1 device_entries) <;> simp
  rw [hdich, hsup]
  push_neg
  rfl

/-- Witness for C1: a version-1 record with one device that carries two
config entries migrates to `superseded`. -/
theorem migrate_v1_superseded_iff_witness :
    migrationOutcome (async_migrate_entry 1 [⟨["old", "new"]⟩]) =
      MigrationOutcome.superseded :=
  (migrate_v1_superseded_iff [⟨["old", "new"]⟩]).1.mpr (by decide)

/-- C10: A version-1 record with no associated devices migrates to
`superseded` (its removal is scheduled): the all-devices-migrated check is
vacuously true over the empty list. -/
theorem migrate_v1_empty_superseded :
    migrationOutcome (async_migrate_entry 1 []) = .superseded ∧
    (async_migrate_entry 1 []).removalScheduled = true := by
  constructor <;> rfl

/-- C6: classify is total with `switch` as the default: every model name not
in the ten-entry dispatch table maps to `switch`, "Humidifier" maps to `fan`,
and every string maps to one of the four categories. -/
theorem classify_total_default :
    (∀ m : String, (∀ p ∈ WEMO_MODEL_DISPATCH, p.1 ≠ m) → classify m = .switch) ∧
    classify "Humidifier" = Domain.fan ∧
    (∀ m : String, classify m = .binary_sensor ∨ classify m = .fan ∨
      classify m = .light ∨ classify m = .switch) := by
  refine ⟨?_, by decide, ?_⟩
  · intro m hm
    have hnone : WEMO_MODEL_DISPATCH.find? (fun p => p.1 == m) = none := by
      apply List.find?_eq_none.mpr
      intro p hp
      simpa using hm p hp
    simp [classify, hnone]
  · intro m
    cases h : classify m
    · exact Or.inl rfl
    · exact Or.inr (Or.inl rfl)
    · exact Or.inr (Or.inr (Or.inl rfl))
    · exact Or.inr (Or.inr (Or.inr rfl))

/-- Witness for C6: a model name outside the table classifies as `switch`. -/
theorem classify_total_default_witness :
    classify "Frobnicator" = Domain.switch :=
  classify_total_default.1 "Frobnicator" (by decide)

/-- Transport-level failures of the description fetch: the
requests.exceptions.ConnectionError and requests.exceptions.Timeout cases
caught in `_get_wemo_device`. -/
inductive TransportError where
  | connectionRefused (msg : String)
  | timedOut (msg : String)
deriving DecidableEq, Repr

/-- The parsed device description returned by a successful resolution
(pywemo.WeMoDevice, restricted to the fields this component reads). -/
structure WeMoDevice where
  serialnumber : String
  name : String
  model_name : String
deriving DecidableEq, Repr

/-- Errors raised by `_get_wemo_device`: CannotDeterminePortError (the spec's
PortUndeterminedError) and ConnectError (the spec's ConnectionError), the
latter carrying its underlying transport cause (`raise ... from err`). -/
inductive WemoError where
  | cannotDeterminePort (msg : String)
  | connect (msg : String) (cause : TransportError)
deriving DecidableEq, Repr

/-- The setup URL pywemo builds from a host and an explicit port. -/
def setupUrl (host : String) (port : Nat) : String :=
  "http://" ++ host ++ ":" ++ toString port ++ "/setup.xml"

/-- Modelled from the spec: pywemo.setup_url_for_address is external library
code. Per §4.1 steps (1)-(2) and the §6 "Auto-discovery probe" collaborator:
with a nonzero port the setup URL is built directly from (host, port); with
port 0 the probe either supplies a setup URL or signals "undeterminable"
(`none`). -/
def setup_url_for_address (probe : String → Option String) (host : String)
    (port : Nat) : Option String :=
  if port ≠ 0 then some (setupUrl host port) else probe host

/-- Embedding of `_get_wemo_device` from __init__.py, with the external collaborators made
explicit: `probe` stands for the port-0 auto-discovery inside
pywemo.setup_url_for_address and `fetch` for
pywemo.discovery.device_from_description. A missing URL raises
CannotDeterminePortError; a transport failure of the fetch is wrapped in
ConnectError with the original error as cause. -/
def _get_wemo_device (probe : String → Option String)
    (fetch : String → Except TransportError WeMoDevice)
    (host : String) (port : Nat) : Except WemoError WeMoDevice :=
  match setup_url_for_address probe host port with
  | none =>
    .error (.cannotDeterminePort
      ("Unable to get description url for WeMo at: " ++
        (if port ≠ 0 then host ++ ":" ++ toString port else host)))
  | some url =>
    match fetch url with
    | .ok device => .ok device
    | .error err => .error (.connect ("Unable to access WeMo at " ++ url) err)

/-- C4: resolution fails with a CannotDeterminePortError exactly when no port
was supplied (port = 0) and the auto-discovery probe yields no URL; in that
case the description fetch is never consulted (the result is the same for
every fetch function). -/
theorem get_wemo_device_port_undetermined (probe : String → Option String)
    (fetch : String → Except TransportError WeMoDevice)
    (host : String) (port : Nat) :
    ((∃ msg, _get_wemo_device probe fetch host port =
        .error (.cannotDeterminePort msg)) ↔ (port = 0 ∧ probe host = none)) ∧
    (port = 0 → probe host = none →
      ∀ fetch2 : String → Except TransportError WeMoDevice,
        _get_wemo_device probe fetch host port =
          _get_wemo_device probe fetch2 host port) := by
  constructor
  · constructor
    · rintro ⟨msg, hmsg⟩
      by_cases hp : port = 0
      · subst hp
        refine ⟨rfl, ?_⟩
        cases hprobe : probe host with
        | none => rfl
        | some url =>
          simp [_get_wemo_device, setup_url_for_address, hprobe] at hmsg
          cases hfetch : fetch url <;> simp [hfetch] at hmsg
      · simp [_get_wemo_device, setup_url_for_address, hp] at hmsg
        cases hfetch : fetch (setupUrl host port) <;> simp [hfetch] at hmsg
    · rintro ⟨hp, hprobe⟩
      subst hp
      refine ⟨"Unable to get description url for WeMo at: " ++ host, ?_⟩
      simp [_get_wemo_device, setup_url_for_address, hprobe]
  · intro hp hprobe fetch2
    subst hp
    simp [_get_wemo_device, setup_url_for_address, hprobe]

/-- Witness for C4: with port 0 and a probe that finds nothing, resolution
reports CannotDeterminePortError. -/
theorem get_wemo_device_port_undetermined_witness :
    ∃ msg, _get_wemo_device (fun _ => none)
        (fun _ => .ok ⟨"sn", "nm", "Socket"⟩) "192.168.1.5" 0 =
      .error (.cannotDeterminePort msg) :=
  (get_wemo_device_port_undetermined (fun _ => none)
      (fun _ => .ok ⟨"sn", "nm", "Socket"⟩) "192.168.1.5" 0).1.mpr ⟨rfl, rfl⟩

/-- C5: whenever a setup URL was determined and the description fetch fails
with a transport-level connection or timeout error, resolution fails with a
ConnectError that preserves the underlying transport error as its cause. -/
theorem get_wemo_device_connect_error (probe : String → Option String)
    (fetch : String → Except TransportError WeMoDevice)
    (host : String) (port : Nat) (url : String) (cause : TransportError)
    (hurl : setup_url_for_address probe host port = some url)
    (hfetch : fetch url = .error cause) :
    ∃ msg, _get_wemo_device probe fetch host port =
      .error (.connect msg cause) := by
  refine ⟨"Unable to access WeMo at " ++ url, ?_⟩
  simp [_get_wemo_device, hurl, hfetch]

/-- Witness for C5: a fetch that times out makes resolution fail with a
ConnectError carrying that timeout as cause. -/
theorem get_wemo_device_connect_error_witness :
    ∃ msg, _get_wemo_device (fun _ => none)
        (fun _ => .error (.timedOut "t")) "192.168.1.5" 49153 =
      .error (.connect msg (.timedOut "t")) :=
  get_wemo_device_connect_error (fun _ => none)
    (fun _ => .error (.timedOut "t")) "192.168.1.5" 49153
    (setupUrl "192.168.1.5" 49153) (.timedOut "t") (by decide) rfl

/-- The process-wide resolution cache `pywemo_wemodevice_cache`: a dictionary
from `"host:port"` keys to resolved device handles, modelled as an
association list with at most one entry per key. -/
def Cache : Type := List (String × WeMoDevice)

/-- instance for deciding equality of caches. -/
instance : DecidableEq Cache := by
  unfold Cache
  infer_instance

/-- The cache key `f"{host}:{port}"` used by `async_get_wemo_device`. -/
def cacheKey (host : String) (port : Nat) : String :=
  host ++ ":" ++ toString port

/-- Dictionary `cache.get(key, None)`. -/
def cacheGet (cache : Cache) (key : String) : Option WeMoDevice :=
  (cache.find? (fun p => p.1 == key)).map Prod.snd

/-- Dictionary `cache.pop(key, None)`: the looked-up value together with the
cache with any entry for `key` removed. -/
def cachePop (cache : Cache) (key : String) : Option WeMoDevice × Cache :=
  (cacheGet cache key, cache.filter (fun p => p.1 != key))

/-- Dictionary assignment `cache[key] = device`: replaces any entry for
`key`. -/
def cacheInsert (cache : Cache) (key : String) (d : WeMoDevice) : Cache :=
  cache.filter (fun p => p.1 != key) ++ [(key, d)]

/-- Embedding of `async_get_wemo_device` from __init__.py: look the key up in the cache
(`pop` when remove_cache is set, plain `get` otherwise); on a hit return the
cached handle, on a miss resolve via `_get_wemo_device` and store the result
in the cache. Returns the device together with the resulting cache state. -/
def async_get_wemo_device (cache : Cache) (remove_cache : Bool)
    (probe : String → Option String)
    (fetch : String → Except TransportError WeMoDevice)
    (host : String) (port : Nat) : Except WemoError (WeMoDevice × Cache) :=
  let key := cacheKey host port
  let lookup := if remove_cache then cachePop cache key
    else (cacheGet cache key, cache)
  match lookup.1 with
  | some d => .ok (d, lookup.2)
  | none =>
    match _get_wemo_device probe fetch host port with
    | .error e => .error e
    | .ok d => .ok (d, cacheInsert lookup.2 key d)

/-- Looking up a key right after inserting it yields the inserted device. -/
theorem cacheGet_cacheInsert (cache : Cache) (key : String) (d : WeMoDevice) :
    cacheGet (cacheInsert cache key d) key = some d := by
  unfold Cache at cache
  induction cache with
  | nil => simp [cacheGet, cacheInsert, List.find?]
  | cons p rest ih =>
    by_cases hk : p.1 = key
    · have hdrop : cacheInsert (p :: rest) key d = cacheInsert rest key d := by
        simp [cacheInsert, hk]
      rw [hdrop]
      exact ih
    · have hkeep : cacheInsert (p :: rest) key d = p :: cacheInsert rest key d := by
        simp [cacheInsert, hk]
      rw [hkeep]
      have hbeq : (p.1 == key) = false := by
        simpa using hk
      rw [show cacheGet (p :: cacheInsert rest key d) key =
        cacheGet (cacheInsert rest key d) key from by
          simp [cacheGet, List.find?, hbeq]]
      exact ih

/-- After popping a key no entry for that key remains in the cache. -/
theorem cacheGet_cachePop (cache : Cache) (key : String) :
    cacheGet (cachePop cache key).2 key = none := by
  apply Option.map_eq_none.mpr
  apply List.find?_eq_none.mpr
  intro p hp
  have := (List.mem_filter.mp hp).2
  simpa using this

/-- C7 (amended): a successful resolve on a cache miss stores the handle
under the key `"host:port"` — whether or not the take variant was used — and
the take (pop) variant applied to a cache hit hands the cached handle to the
caller and leaves no entry under the key. -/
theorem async_get_wemo_device_cache (cache : Cache)
    (probe : String → Option String)
    (fetch : String → Except TransportError WeMoDevice)
    (host : String) (port : Nat) :
    (∀ (remove_cache : Bool) (d : WeMoDevice),
      cacheGet cache (cacheKey host port) = none →
      _get_wemo_device probe fetch host port = .ok d →
      ∃ cache2, async_get_wemo_device cache remove_cache probe fetch host port =
          .ok (d, cache2) ∧
        cacheGet cache2 (cacheKey host port) = some d) ∧
    (∀ d : WeMoDevice,
      cacheGet cache (cacheKey host port) = some d →
      ∃ cache2, async_get_wemo_device cache true probe fetch host port =
          .ok (d, cache2) ∧
        cacheGet cache2 (cacheKey host port) = none) := by
  constructor
  · intro remove_cache d hmiss hres
    cases remove_cache with
    | false =>
      refine ⟨cacheInsert cache (cacheKey host port) d, ?_, ?_⟩
      · simp [async_get_wemo_device, hmiss, hres]
      · exact cacheGet_cacheInsert cache (cacheKey host port) d
    | true =>
      refine ⟨cacheInsert (cachePop cache (cacheKey host port)).2
          (cacheKey host port) d, ?_, ?_⟩
      · simp [async_get_wemo_device, cachePop, hmiss, hres]
      · exact cacheGet_cacheInsert _ (cacheKey host port) d
  · intro d hhit
    refine ⟨(cachePop cache (cacheKey host port)).2, ?_, ?_⟩
    · simp [async_get_wemo_device, cachePop, hhit]
    · exact cacheGet_cachePop cache (cacheKey host port)

/-- Witness for C7 (amended): taking a cached handle removes its entry. -/
theorem async_get_wemo_device_cache_witness :
    ∃ cache2,
      async_get_wemo_device [("h:1", ⟨"sn", "nm", "Socket"⟩)] true
          (fun _ => none) (fun _ => .error (.timedOut "t")) "h" 1 =
        .ok (⟨"sn", "nm", "Socket"⟩, cache2) ∧
      cacheGet cache2 (cacheKey "h" 1) = none :=
  (async_get_wemo_device_cache [("h:1", ⟨"sn", "nm", "Socket"⟩)]
      (fun _ => none) (fun _ => .error (.timedOut "t")) "h" 1).2
    ⟨"sn", "nm", "Socket"⟩ (by decide)

/-- C7 (counterexample): on the empty cache, a take-based call
(remove_cache set) that resolves successfully leaves an entry under the key
`"h:1"`, so it is not the case that after every take-based resolution no
cache entry remains under the key. -/
theorem async_get_wemo_device_take_miss_leaves_entry :
    async_get_wemo_device [] true (fun _ => none)
        (fun _ => .ok ⟨"sn", "nm", "Socket"⟩) "h" 1 =
      .ok (⟨"sn", "nm", "Socket"⟩, [(cacheKey "h" 1, ⟨"sn", "nm", "Socket"⟩)]) ∧
    cacheGet [(cacheKey "h" 1, ⟨"sn", "nm", "Socket"⟩)] (cacheKey "h" 1) =
      some ⟨"sn", "nm", "Socket"⟩ := by
  constructor <;> rfl

/-- Embedding of `value.partition(":")` as used by coerce_host_port: the characters before
the first ':' and, when a ':' occurs at all, the characters after it. -/
def partitionColon : List Char → List Char × Option (List Char)
  | [] => ([], none)
  | c :: cs =>
    if c = ':' then ([], some cs)
    else
      let r := partitionColon cs
      (c :: r.1, r.2)

/-- Value of a decimal digit string, rejecting any non-digit character. -/
def digitsVal : List Char → Nat → Option Nat
  | [], acc => some acc
  | c :: cs, acc =>
    if c.isDigit then digitsVal cs (acc * 10 + (c.toNat - '0'.toNat)) else none

/-- Decimal parse of a nonempty digit string. -/
def parseNat? (s : String) : Option Nat :=
  match s.data with
  | [] => none
  | l => digitsVal l 0

/-- Modelled from the spec: homeassistant.helpers.config_validation.port
(cv.port) is host-framework code outside the component sources; per the spec
the port part is "validated as a port number", i.e. an integer in 1..65535. -/
def cv_port (s : String) : Except String Nat :=
  match parseNat? s with
  | some n => if 1 ≤ n ∧ n ≤ 65535 then .ok n else .error "invalid port"
  | none => .error "invalid port"

/-- Embedding of `coerce_host_port` from __init__.py: split the value at the first ':',
reject an empty host, validate a non-empty port part with cv.port, and
default the port to 0 when absent or empty. -/
def coerce_host_port (value : String) : Except String (String × Nat) :=
  let hp := partitionColon value.data
  let host := String.mk hp.1
  if host = "" then .error "host cannot be empty"
  else
    match hp.2 with
    | none => .ok (host, 0)
    | some [] => .ok (host, 0)
    | some ps =>
      match cv_port (String.mk ps) with
      | .ok p => .ok (host, p)
      | .error e => .error e

/-- On a colon-free character list the partition yields the whole list and no
port part. -/
theorem partitionColon_no_colon (l : List Char) (h : ':' ∉ l) :
    partitionColon l = (l, none) := by
  induction l with
  | nil => rfl
  | cons c cs ih =>
    have hc : c ≠ ':' := fun hc => h (hc ▸ List.mem_cons_self c cs)
    have hcs : ':' ∉ cs := fun hm => h (List.mem_cons_of_mem c hm)
    simp [partitionColon, hc, ih hcs]

/-- Partition splits at the first ':' of the list. -/
theorem partitionColon_append (l r : List Char) (h : ':' ∉ l) :
    partitionColon (l ++ ':' :: r) = (l, some r) := by
  induction l with
  | nil => simp [partitionColon]
  | cons c cs ih =>
    have hc : c ≠ ':' := fun hc => h (hc ▸ List.mem_cons_self c cs)
    have hcs : ':' ∉ cs := fun hm => h (List.mem_cons_of_mem c hm)
    simp [partitionColon, hc, ih hcs]

/-- Rebuilding a string from its character data is the identity. -/
theorem string_mk_data (s : String) : String.mk s.data = s := rfl

/-- The empty character list rebuilds to the empty string. -/
theorem string_mk_nil : (String.mk [] : String) = "" := rfl

/-- C9: static-configuration parsing splits an entry at the first ':' — a
bare colon-free host parses to (host, 0); "host:rest" parses to host paired
with cv.port applied to rest (or (host, 0) for a trailing empty port part);
an empty host is rejected with a validation error, whether or not a port part
follows; and "127.0.0.1:50000" parses to ("127.0.0.1", 50000). -/
theorem coerce_host_port_spec :
    (∀ host : String, host ≠ "" → ':' ∉ host.data →
      coerce_host_port host = .ok (host, 0)) ∧
    (∀ host rest : String, host ≠ "" → ':' ∉ host.data → rest ≠ "" →
      coerce_host_port (host ++ ":" ++ rest) =
        match cv_port rest with
        | .ok p => .ok (host, p)
        | .error e => .error e) ∧
    (∀ host : String, host ≠ "" → ':' ∉ host.data →
      coerce_host_port (host ++ ":") = .ok (host, 0)) ∧
    coerce_host_port "" = .error "host cannot be empty" ∧
    (∀ rest : String, coerce_host_port (":" ++ rest) =
      .error "host cannot be empty") ∧
    coerce_host_port "127.0.0.1:50000" = .ok ("127.0.0.1", 50000) := by
  have hmkne : ∀ s : String, s ≠ "" → String.mk s.data ≠ "" := fun _ h => h
  refine ⟨?_, ?_, ?_, by rfl, ?_, by rfl⟩
  · intro host hne hnc
    have hpart : partitionColon host.data = (host.data, none) :=
      partitionColon_no_colon host.data hnc
    simp [coerce_host_port, hpart, if_neg (hmkne host hne), string_mk_data]
  · intro host rest hne hnc hrne
    have hdata : (host ++ ":" ++ rest).data = host.data ++ ':' :: rest.data := by
      rw [String.data_append, String.data_append,
        show (":" : String).data = [':'] from rfl, List.append_assoc]
      rfl
    have hpart : partitionColon (host ++ ":" ++ rest).data =
        (host.data, some rest.data) := by
      rw [hdata]
      exact partitionColon_append host.data rest.data hnc
    cases hrl : rest.data with
    | nil =>
      refine absurd ?_ hrne
      cases rest with
      | mk d =>
        cases hrl
        rfl
    | cons c cs =>
      have hrest : String.mk (c :: cs) = rest := by
        rw [← hrl]
      simp only [coerce_host_port, hpart, hrl, hrest,
        if_neg (hmkne host hne), string_mk_data]
  · intro host hne hnc
    have hpart : partitionColon (host.data ++ [':']) = (host.data, some []) :=
      partitionColon_append host.data [] hnc
    simp [coerce_host_port, hpart, if_neg (hmkne host hne), string_mk_data]
  · intro rest
    have hdata : (":" ++ rest).data = ':' :: rest.data := by
      rw [String.data_append]
      rfl
    simp [coerce_host_port, hdata, partitionColon, string_mk_nil]

/-- Witness for C9: a bare host parses with port 0, and a host:port entry
parses its port with cv.port. -/
theorem coerce_host_port_spec_witness :
    coerce_host_port "192.168.1.5" = .ok ("192.168.1.5", 0) ∧
    coerce_host_port "192.168.1.5:80" = .ok ("192.168.1.5", 80) := by
  constructor
  · exact coerce_host_port_spec.1 "192.168.1.5" (by decide) (by decide)
  · have h := coerce_host_port_spec.2.1 "192.168.1.5" "80"
      (by decide) (by decide) (by decide)
    rw [show ("192.168.1.5:80" : String) = "192.168.1.5" ++ ":" ++ "80" from rfl,
      h]
    rfl

/-- Modelled from the spec: the persisted ConfigRecord of the host
configuration store (§3): host, port, category, unique_id = serial_number
and schema version. The store machinery (async_set_unique_id,
_abort_if_unique_id_configured) is host-framework code outside the component
sources. -/
structure ConfigRecord where
  host : String
  port : Nat
  category : Domain
  unique_id : String
  schema_version : Nat
deriving DecidableEq, Repr

/-- Signal of a reconcile attempt: a new record was created, or the request
hit an existing unique_id and was rejected as a duplicate no-op (with an
in-place address update). -/
inductive ReconcileOutcome where
  | created
  | duplicate
deriving DecidableEq, Repr

/-- Modelled from the spec: reconcile (§4.3) as driven by async_step_user in
config_flow.py: the resolved device's serial_number becomes the unique_id;
if a record with that unique_id already exists the creation is rejected
("duplicate, no-op") while the record's (host, port) are updated in place
(_abort_if_unique_id_configured(user_input)); otherwise a record is created
with the category classified from model_name and the current schema version
2 (CONFIG_ENTRY_VERSION). -/
def reconcile (store : List ConfigRecord) (serial host : String) (port : Nat)
    (model_name : String) : ReconcileOutcome × List ConfigRecord :=
  if store.any (fun r => r.unique_id == serial) then
    (.duplicate,
      store.map (fun r =>
        if r.unique_id == serial then { r with host := host, port := port }
        else r))
  else
    (.created,
      store ++ [{ host := host, port := port, category := classify model_name,
                  unique_id := serial, schema_version := 2 }])

/-- A reconcile request: the resolved serial number, the observed address
and the device's model name. -/
structure ReconcileRequest where
  serial : String
  host : String
  port : Nat
  model_name : String
deriving DecidableEq, Repr

/-- The store left behind by one reconcile request. -/
def applyReconcile (store : List ConfigRecord) (req : ReconcileRequest) :
    List ConfigRecord :=
  (reconcile store req.serial req.host req.port req.model_name).2

/-- Reconciling leaves the unique_id sequence unchanged on a hit and appends
the new unique_id on a miss. -/
theorem reconcile_ids (store : List ConfigRecord) (serial host : String)
    (port : Nat) (model_name : String) :
    (reconcile store serial host port model_name).2.map ConfigRecord.unique_id =
      if serial ∈ store.map ConfigRecord.unique_id
      then store.map ConfigRecord.unique_id
      else store.map ConfigRecord.unique_id ++ [serial] := by
  by_cases h : serial ∈ store.map ConfigRecord.unique_id
  · obtain ⟨r, hr, hid⟩ := List.mem_map.mp h
    have hany : store.any (fun r => r.unique_id == serial) = true :=
      List.any_eq_true.mpr ⟨r, hr, by simp [hid]⟩
    rw [if_pos h]
    have hred : (reconcile store serial host port model_name).2 =
        store.map (fun r => if r.unique_id == serial
          then { r with host := host, port := port } else r) := by
      simp [reconcile, hany]
    rw [hred, List.map_map]
    apply List.map_congr_left
    intro a _
    by_cases ha : a.unique_id = serial <;> simp [ha]
  · have hany : store.any (fun r => r.unique_id == serial) = false := by
      rw [List.any_eq_false]
      intro r hr
      simp only [beq_iff_eq]
      exact fun hid => h (List.mem_map.mpr ⟨r, hr, hid⟩)
    rw [if_neg h]
    simp [reconcile, hany]

/-- One reconcile request keeps the unique_ids pairwise distinct. -/
theorem applyReconcile_nodup (store : List ConfigRecord)
    (req : ReconcileRequest)
    (hnd : (store.map ConfigRecord.unique_id).Nodup) :
    ((applyReconcile store req).map ConfigRecord.unique_id).Nodup := by
  unfold applyReconcile
  rw [reconcile_ids]
  by_cases h : req.serial ∈ store.map ConfigRecord.unique_id
  · simpa [h] using hnd
  · simp [h, List.nodup_append, hnd]

/-- C2: unique_id deduplication: over a store whose unique_ids are pairwise
distinct, an attempt to create a record for an already-present unique_id is
rejected as a duplicate no-op and leaves the store size unchanged; any
sequence of reconcile operations keeps unique_ids pairwise distinct; and
issuing the same request twice for an identity not yet in the store leaves
exactly one record carrying that unique_id. -/
theorem reconcile_dedup (store : List ConfigRecord)
    (hnd : (store.map ConfigRecord.unique_id).Nodup) :
    (∀ (serial host : String) (port : Nat) (model_name : String),
      serial ∈ store.map ConfigRecord.unique_id →
        (reconcile store serial host port model_name).1 = .duplicate ∧
        (reconcile store serial host port model_name).2.length =
          store.length) ∧
    (∀ reqs : List ReconcileRequest,
      ((reqs.foldl applyReconcile store).map ConfigRecord.unique_id).Nodup) ∧
    (∀ req : ReconcileRequest,
      req.serial ∉ store.map ConfigRecord.unique_id →
        List.count req.serial
          ((applyReconcile (applyReconcile store req) req).map
            ConfigRecord.unique_id) = 1) := by
  refine ⟨?_, ?_, ?_⟩
  · intro serial host port model_name hmem
    obtain ⟨r, hr, hid⟩ := List.mem_map.mp hmem
    have hany : store.any (fun r => r.unique_id == serial) = true :=
      List.any_eq_true.mpr ⟨r, hr, by simp [hid]⟩
    constructor
    · simp [reconcile, hany]
    · simp [reconcile, hany]
  · intro reqs
    induction reqs generalizing store with
    | nil => exact hnd
    | cons req rest ih =>
      exact ih (applyReconcile store req) (applyReconcile_nodup store req hnd)
  · intro req hmem
    have h1 : (reconcile store req.serial req.host req.port
        req.model_name).2.map ConfigRecord.unique_id =
        store.map ConfigRecord.unique_id ++ [req.serial] := by
      rw [reconcile_ids, if_neg hmem]
    have hmem1 : req.serial ∈
        (reconcile store req.serial req.host req.port
          req.model_name).2.map ConfigRecord.unique_id := by
      rw [h1]
      simp
    have h2 : (applyReconcile (applyReconcile store req) req).map
        ConfigRecord.unique_id =
        (reconcile store req.serial req.host req.port
          req.model_name).2.map ConfigRecord.unique_id := by
      show (reconcile (applyReconcile store req) req.serial req.host req.port
          req.model_name).2.map ConfigRecord.unique_id = _
      rw [reconcile_ids,
        show applyReconcile store req =
          (reconcile store req.serial req.host req.port req.model_name).2
          from rfl,
        if_pos hmem1]
    rw [h2, h1]
    simp [List.count_append, List.count_eq_zero.mpr hmem]

/-- Witness for C2: against a one-record store, re-supplying the stored
identity is a duplicate no-op that keeps the store at one record. -/
theorem reconcile_dedup_witness :
    (reconcile [⟨"10.0.0.2", 49153, .switch, "SN1", 2⟩] "SN1" "10.0.0.3" 49154
        "Socket").1 = ReconcileOutcome.duplicate ∧
    (reconcile [⟨"10.0.0.2", 49153, .switch, "SN1", 2⟩] "SN1" "10.0.0.3" 49154
        "Socket").2.length =
      [(⟨"10.0.0.2", 49153, .switch, "SN1", 2⟩ : ConfigRecord)].length :=
  (reconcile_dedup [⟨"10.0.0.2", 49153, .switch, "SN1", 2⟩] (by decide)).1
    "SN1" "10.0.0.3" 49154 "Socket" (by decide)

/-- C3: identity continuity: when a record carrying the resolved
serial_number exists (stored at a different address), reconciliation signals
duplicate, preserves the store size and unique_id sequence, keeps every
record with a different unique_id untouched, replaces the matching record by
the same record with the new (host, port) — all other fields unchanged —
and every record carrying the unique_id ends at the new address: no new
record is created. -/
theorem reconcile_identity_continuity (store : List ConfigRecord)
    (r : ConfigRecord) (serial host model_name : String) (port : Nat)
    (hr : r ∈ store) (hid : r.unique_id = serial)
    (_haddr : r.host ≠ host ∨ r.port ≠ port) :
    (reconcile store serial host port model_name).1 = .duplicate ∧
    (reconcile store serial host port model_name).2.length = store.length ∧
    (reconcile store serial host port model_name).2.map ConfigRecord.unique_id =
      store.map ConfigRecord.unique_id ∧
    { r with host := host, port := port } ∈
      (reconcile store serial host port model_name).2 ∧
    (∀ s ∈ store, s.unique_id ≠ serial →
      s ∈ (reconcile store serial host port model_name).2) ∧
    (∀ s ∈ (reconcile store serial host port model_name).2,
      s.unique_id = serial → s.host = host ∧ s.port = port) := by
  have hany : store.any (fun x => x.unique_id == serial) = true :=
    List.any_eq_true.mpr ⟨r, hr, by simp [hid]⟩
  have hmem : serial ∈ store.map ConfigRecord.unique_id :=
    List.mem_map.mpr ⟨r, hr, hid⟩
  refine ⟨by simp [reconcile, hany], by simp [reconcile, hany], ?_, ?_, ?_, ?_⟩
  · rw [reconcile_ids, if_pos hmem]
  · simp only [reconcile, hany, if_pos rfl]
    exact List.mem_map.mpr ⟨r, hr, by simp [hid]⟩
  · intro s hs hsid
    simp only [reconcile, hany, if_pos rfl]
    refine List.mem_map.mpr ⟨s, hs, ?_⟩
    simp [hsid]
  · intro s hs hsid
    simp only [reconcile, hany, if_pos rfl] at hs
    obtain ⟨t, ht, hts⟩ := List.mem_map.mp hs
    by_cases hteq : t.unique_id = serial
    · rw [← hts]
      simp [hteq]
    · rw [← hts] at hsid
      simp [hteq] at hsid

/-- Witness for C3: re-resolving a stored identity at a new address moves
the record to that address without creating a second record. -/
theorem reconcile_identity_continuity_witness :
    (reconcile [⟨"10.0.0.2", 49153, .fan, "SN1", 2⟩] "SN1" "10.0.0.9" 49155
        "Humidifier").1 = ReconcileOutcome.duplicate ∧
    (reconcile [⟨"10.0.0.2", 49153, .fan, "SN1", 2⟩] "SN1" "10.0.0.9" 49155
        "Humidifier").2.length =
      [(⟨"10.0.0.2", 49153, .fan, "SN1", 2⟩ : ConfigRecord)].length ∧
    (reconcile [⟨"10.0.0.2", 49153, .fan, "SN1", 2⟩] "SN1" "10.0.0.9" 49155
        "Humidifier").2.map ConfigRecord.unique_id =
      [(⟨"10.0.0.2", 49153, .fan, "SN1", 2⟩ : ConfigRecord)].map
        ConfigRecord.unique_id ∧
    ({ (⟨"10.0.0.2", 49153, .fan, "SN1", 2⟩ : ConfigRecord) with
        host := "10.0.0.9", port := 49155 } ∈
      (reconcile [⟨"10.0.0.2", 49153, .fan, "SN1", 2⟩] "SN1" "10.0.0.9" 49155
        "Humidifier").2) ∧
    (∀ s ∈ [(⟨"10.0.0.2", 49153, .fan, "SN1", 2⟩ : ConfigRecord)],
      s.unique_id ≠ "SN1" →
        s ∈ (reconcile [⟨"10.0.0.2", 49153, .fan, "SN1", 2⟩] "SN1" "10.0.0.9"
          49155 "Humidifier").2) ∧
    (∀ s ∈ (reconcile [⟨"10.0.0.2", 49153, .fan, "SN1", 2⟩] "SN1" "10.0.0.9"
        49155 "Humidifier").2,
      s.unique_id = "SN1" → s.host = "10.0.0.9" ∧ s.port = 49155) :=
  reconcile_identity_continuity [⟨"10.0.0.2", 49153, .fan, "SN1", 2⟩]
    ⟨"10.0.0.2", 49153, .fan, "SN1", 2⟩ "SN1" "10.0.0.9" "Humidifier" 49155
    (by decide) (by decide) (Or.inl (by decide))

/-- The mutable data dictionary of a config entry as read and written by
async_setup_entry: host, port and the optional stored platform domain
(CONF_DOMAIN). -/
structure EntryData where
  host : String
  port : Nat
  domain : Option Domain
deriving DecidableEq, Repr

/-- A config entry: its data dictionary plus the host-managed identity
fields the wemo code never touches in async_setup_entry. -/
structure ConfigEntry where
  data : EntryData
  unique_id : String
  version : Nat
deriving DecidableEq, Repr

/-- The category-reconciliation step of `async_setup_entry` (__init__.py):
recompute the platform domain from the resolved device's model_name and call
async_update_entry with `data = {**entry.data, CONF_DOMAIN: domain}` only
when the stored domain disagrees. Returns the resulting entry and whether an
update was issued. -/
def setup_entry_update (entry : ConfigEntry) (model_name : String) :
    ConfigEntry × Bool :=
  let domain := classify model_name
  if entry.data.domain = some domain then (entry, false)
  else ({ entry with data := { entry.data with domain := some domain } }, true)

/-- C8: the category reconciliation of async_setup_entry only ever touches
the entry's domain field: host, port, unique_id and version survive
unchanged, the resulting domain is the freshly classified one, an agreeing
entry is returned as-is with no update issued, and a disagreeing entry is
updated in place. -/
theorem setup_entry_update_frame (entry : ConfigEntry) (model_name : String) :
    ((setup_entry_update entry model_name).1.data.host = entry.data.host ∧
     (setup_entry_update entry model_name).1.data.port = entry.data.port ∧
     (setup_entry_update entry model_name).1.unique_id = entry.unique_id ∧
     (setup_entry_update entry model_name).1.version = entry.version) ∧
    (setup_entry_update entry model_name).1.data.domain =
      some (classify model_name) ∧
    (entry.data.domain = some (classify model_name) →
      setup_entry_update entry model_name = (entry, false)) ∧
    (entry.data.domain ≠ some (classify model_name) →
      (setup_entry_update entry model_name).2 = true) := by
  by_cases h : entry.data.domain = some (classify model_name) <;>
    simp [setup_entry_update, h]

/-- Witness for C8: an entry stored as switch that resolves to a Humidifier
is updated in place. -/
theorem setup_entry_update_frame_witness :
    (setup_entry_update ⟨⟨"10.0.0.2", 49153, some .switch⟩, "SN1", 2⟩
      "Humidifier").2 = true :=
  (setup_entry_update_frame ⟨⟨"10.0.0.2", 49153, some .switch⟩, "SN1", 2⟩
    "Humidifier").2.2.2 (by decide)

end Wemo
